import Mathlib

/-!
Verification development for the CYNERZA/Cyne repository.

The repository has two Python source files:
  * `src/test3.py`      — a CLI demo (greeting / integer addition / usage message);
  * `src/toolstobe.py`  — VS Code tool wrappers: availability probes, a permission
    gate, HTTP calls to a local service on `http://localhost:8090` and Rich
    console output.

Shallow embedding conventions:
  * Machine-level effects are made explicit.  Each wrapper tool is a pure
    function from an environment `Env` describing the external world (results
    of the `code --version` subprocess, the socket probe, each HTTP endpoint
    response, the permission oracle) to a `ToolOut`: the returned string plus
    a trace of observable events (subprocess runs, socket connects, HTTP
    requests with full URL and timeout, permission queries, console prints).
  * JSON bodies are the inductive `Json` (numbers as `Int`).
  * Python exceptions are `Except String` values; the `try/except` blocks of
    the source become the `runHandler` wrapper around each tool body.
  * HTTP request payloads (query params / POST bodies) are not recorded in
    events: no claim concerns them, only the URL, method and timeout.
-/

/-- JSON values as produced by `response.json()`; numbers are modelled as
integers (no claim involves fractional JSON numbers). -/
inductive Json where
  | null : Json
  | bool (b : Bool) : Json
  | num (n : Int) : Json
  | str (s : String) : Json
  | arr (xs : List Json) : Json
  | obj (kvs : List (String × Json)) : Json

mutual

/-- Python `repr` of a JSON-derived value (as used for values interpolated
inside containers).  Container contents are rendered recursively. -/
def pyRepr : Json → String
  | .null => "None"
  | .bool true => "True"
  | .bool false => "False"
  | .num n => toString n
  | .str s => "\x27" ++ s ++ "\x27"
  | .arr xs => "[" ++ String.intercalate ", " (pyReprList xs) ++ "]"
  | .obj kvs => "\x7b" ++ String.intercalate ", " (pyReprObj kvs) ++ "\x7d"

/-- Renders each element of a JSON array for `pyRepr`. -/
def pyReprList : List Json → List String
  | [] => []
  | x :: xs => pyRepr x :: pyReprList xs

/-- Renders each key/value pair of a JSON object for `pyRepr`. -/
def pyReprObj : List (String × Json) → List String
  | [] => []
  | kv :: kvs => ("\x27" ++ kv.1 ++ "\x27: " ++ pyRepr kv.2) :: pyReprObj kvs

end

/-- Python `str()` of a JSON-derived value, as used by f-string interpolation:
strings are rendered without quotes, containers via `repr`. -/
def pyStr : Json → String
  | .str s => s
  | j => pyRepr j

/-- Python `d.get(key, default)`: succeeds on dicts, raises `AttributeError`
on any other value. -/
def pyGet (j : Json) (key : String) (dflt : Json) : Except String Json :=
  match j with
  | .obj kvs => .ok ((kvs.lookup key).getD dflt)
  | _ => .error "AttributeError"

/-- Python truthiness of a JSON-derived value. -/
def pyTruthy : Json → Bool
  | .null => false
  | .bool b => b
  | .num n => !(n == 0)
  | .str s => !(s == "")
  | .arr xs => !xs.isEmpty
  | .obj kvs => !kvs.isEmpty

/-- Python `len()`: defined on strings, lists and dicts, raises `TypeError`
otherwise. -/
def pyLen : Json → Except String Nat
  | .str s => .ok s.length
  | .arr xs => .ok xs.length
  | .obj kvs => .ok kvs.length
  | _ => .error "TypeError"

/-- Python `v == 0` for a JSON-derived `v` (no exception; `False == 0` is
true in Python since `bool` is an `int` subtype). -/
def pyEqZero : Json → Bool
  | .num n => n == 0
  | .bool b => !b
  | _ => false

/-- Python `v > k` against an integer literal: succeeds on numbers and
booleans, raises `TypeError` otherwise. -/
def pyGtInt : Json → Int → Except String Bool
  | .num n, k => .ok (decide (k < n))
  | .bool b, k => .ok (decide (k < (if b then (1 : Int) else 0)))
  | _, _ => .error "TypeError"

/-- Python `v - k` against an integer literal: succeeds on numbers and
booleans, raises `TypeError` otherwise. -/
def pySubInt : Json → Int → Except String Json
  | .num n, k => .ok (.num (n - k))
  | .bool b, k => .ok (.num ((if b then (1 : Int) else 0) - k))
  | _, _ => .error "TypeError"

/-- Conversion of a JSON value to the list Python iteration would traverse:
lists iterate their elements, strings iterate their characters (as one-char
strings), anything else raises `TypeError`.  Used for `files[:50]` and
`enumerate(files_display)`. -/
def pyToList : Json → Except String (List Json)
  | .arr xs => .ok xs
  | .str s => .ok (s.toList.map fun c => Json.str (String.singleton c))
  | _ => .error "TypeError"

/-- Python format `f"{n:2d}"`: decimal, right-aligned to width two. -/
def fmt2d (n : Nat) : String :=
  if n < 10 then " " ++ toString n else toString n

/-- Python format `f"{v:3d}"` on a JSON-derived value: integers and booleans
format right-aligned to width three, other values raise. -/
def pyFmt3d : Json → Except String String
  | .num n => .ok (if 0 ≤ n ∧ n < 10 then "  " ++ toString n
                   else if 0 ≤ n ∧ n < 100 then " " ++ toString n
                   else toString n)
  | .bool b => .ok (if b then "  1" else "  0")
  | _ => .error "TypeError"

/-- Abstraction of Python `int(s)`: surrounding whitespace stripped, an
optional sign followed by at least one ASCII digit.  (Underscore separators
and non-ASCII digits accepted by CPython are not modelled; no claim involves
them.) -/
def pyIntParse (s : String) : Option Int :=
  let strip : List Char → List Char := fun cs =>
    ((cs.dropWhile Char.isWhitespace).reverse.dropWhile Char.isWhitespace).reverse
  let core : List Char → Option Int := fun ds =>
    if ds ≠ [] ∧ ds.all Char.isDigit then
      some (ds.foldl (fun acc c => acc * 10 + (Int.ofNat (c.toNat - 48))) 0)
    else none
  match strip s.toList with
  | '-' :: ds => (core ds).map (fun n => -n)
  | '+' :: ds => core ds
  | ds => core ds

/-! ## Embedding of `src/test3.py` -/

/-- Line printed by `greet(name)` (src/test3.py line 4). -/
def greetLine (name : String) : String := "Hello, " ++ name ++ "!"

/-- Line printed by `add(a, b)` (src/test3.py line 7). -/
def addLine (a b : Int) : String :=
  toString a ++ " + " ++ toString b ++ " = " ++ toString (a + b)

/-- Usage message of the CLI script (src/test3.py lines 21 and 23). -/
def usageMsg : String :=
  "Usage: python3 test3.py -p <name> OR python3 test3.py add <a> <b>"

/-- Message printed when `int()` raises on an addition argument
(src/test3.py line 19). -/
def intErrMsg : String := "Please provide two integers for addition."

/-- The `__main__` block of src/test3.py (lines 9-23): takes `sys.argv`
(the script name included) and returns the list of printed lines. -/
def test3_main (argv : List String) : List String :=
  if 1 < argv.length then
    if argv.getD 1 "" == "-p" && 2 < argv.length then
      [greetLine (argv.getD 2 "")]
    else if argv.getD 1 "" == "add" && 3 < argv.length then
      match pyIntParse (argv.getD 2 ""), pyIntParse (argv.getD 3 "") with
      | some a, some b => [addLine a b]
      | _, _ => [intErrMsg]
    else [usageMsg]
  else [usageMsg]

example : test3_main ["test3.py", "-p", "World"] = ["Hello, World!"] := by decide
example : test3_main ["test3.py", "add", "2", "3"] = ["2 + 3 = 5"] := by decide
example : test3_main ["test3.py", "add", "x", "3"] = [intErrMsg] := by decide
example : test3_main ["test3.py"] = [usageMsg] := by decide
example : test3_main ["test3.py", "-p"] = [usageMsg] := by decide

/-! ## Embedding of `src/toolstobe.py`: data model -/

/-- Permission categories referenced by toolstobe.py.  Modelled from the spec:
the module `src/security/permission_manager` is not among the sources; the
spec describes only a binary "optional permission gate", so the manager is
modelled as the boolean oracle `Env.getPermission` and this type lists the
two members toolstobe.py passes to it. -/
inductive PermissionType where
  | FILE_OPERATIONS : PermissionType
  | FILE_WRITE : PermissionType
deriving DecidableEq

/-- Observable events of a wrapper tool execution, in program order:
subprocess runs, socket connects, HTTP requests (full URL and timeout in
seconds), permission queries with the oracle's answer, and console output
(`richError`/`richSuccess` are the `display_rich_error`/`display_rich_success`
panels, `printPanel`/`printText` the other `console.print` calls). -/
inductive Event where
  | procRun (cmd : List String) (timeout : Nat) : Event
  | sockConnect (host : String) (port : Nat) (timeout : Nat) : Event
  | httpGet (url : String) (timeout : Nat) : Event
  | httpPost (url : String) (timeout : Nat) : Event
  | permCheck (ptype : PermissionType) (desc : String) (granted : Bool) : Event
  | printPanel (content : String) : Event
  | printText (content : String) : Event
  | richError (msg : String) : Event
  | richSuccess (msg : String) : Event
deriving DecidableEq

/-- An HTTP response: status code and decoded JSON body (`none` when the body
is not well-formed JSON, in which case `response.json()` raises). -/
structure HttpResp where
  status : Nat
  body : Option Json

/-- Result of attempting an HTTP request: `.error m` models a raised
`requests` exception with text `m`. -/
abbrev HttpResult := Except String HttpResp

/-- The external world a tool execution observes: the result of running
`code --version`, the socket probe, the response of each HTTP endpoint of the
service on localhost:8090, and the permission-manager oracle.  Universally
quantifying over `Env` quantifies over all behaviours of the externals. -/
structure Env where
  codeRunResult : Except String Int
  sockConnectResult : Except String Int
  healthResp : HttpResult
  contextResp : HttpResult
  selectionResp : HttpResult
  filesResp : HttpResult
  readResp : HttpResult
  previewResp : HttpResult
  createResp : HttpResult
  diffResp : HttpResult
  editResp : HttpResult
  getPermission : PermissionType → String → Bool

/-- Python exceptions that reach a wrapper's `try/except`: the module's
`VSCodeAvailabilityError` or any other `Exception` (message attached). -/
inductive Exc where
  | availability (msg : String) : Exc
  | otherExc (msg : String) : Exc
deriving DecidableEq

/-- Result of one wrapper tool call: the returned string and the event
trace. -/
structure ToolOut where
  ret : String
  trace : List Event
deriving DecidableEq

/-- Message text used when `response.json()` fails to decode. -/
def jsonDecodeErr : String := "JSONDecodeError"

/-- Configuration constant of toolstobe.py (line 22). -/
def VSCODE_HTTP_URL : String := "http://localhost:8090"

/-- The mojibake prefix the source uses in failure messages (the file stores
a double-encoded cross mark). -/
def xMark : String := "‚ùå"

/-- The mojibake prefix the source uses in success messages (double-encoded
check mark). -/
def vMark : String := "‚úÖ"

/-- Availability message of check_vscode_availability when both checks fail
(line 80). -/
def bothFailMsg : String :=
  xMark ++ " VS Code command not found and API not accessible on localhost:8090"

/-- Availability message when only the `code` command check fails (line 82). -/
def codeFailMsg : String :=
  xMark ++ " VS Code command not found (install VS Code and ensure \x27code\x27 is in PATH)"

/-- Availability message when only the API check fails (line 84). -/
def apiFailMsg : String :=
  xMark ++ " VS Code extension API not accessible on localhost:8090"

/-- Availability message when both checks pass (line 86). -/
def availOkMsg : String := vMark ++ " VS Code is available and connected"

/-! ## Availability checks (toolstobe.py lines 36-92) -/

/-- check_code_command (lines 36-47): runs `code --version` with a 5 second
timeout; true iff the process ran and returned 0; any exception yields
false. -/
def check_code_command (env : Env) : List Event × Bool :=
  ([.procRun ["code", "--version"] 5],
   match env.codeRunResult with
   | .ok rc => rc == 0
   | .error _ => false)

/-- check_vscode_api (lines 49-67): GET `/health` with a 3 second timeout;
on a response, true iff status 200; on an exception, falls back to a socket
connect to localhost:8090 with a 2 second timeout, true iff it connects. -/
def check_vscode_api (env : Env) : List Event × Bool :=
  match env.healthResp with
  | .ok r => ([.httpGet (VSCODE_HTTP_URL ++ "/health") 3], r.status == 200)
  | .error _ =>
      ([.httpGet (VSCODE_HTTP_URL ++ "/health") 3, .sockConnect "localhost" 8090 2],
       match env.sockConnectResult with
       | .ok rc => rc == 0
       | .error _ => false)

/-- check_vscode_availability (lines 69-86): runs both checks and reports a
flag together with a status message naming the failed check. -/
def check_vscode_availability (env : Env) : List Event × (Bool × String) :=
  let c := check_code_command env
  let a := check_vscode_api env
  (c.1 ++ a.1,
   if !c.2 && !a.2 then (false, bothFailMsg)
   else if !c.2 then (false, codeFailMsg)
   else if !a.2 then (false, apiFailMsg)
   else (true, availOkMsg))

/-- ensure_vscode_available (lines 88-92): raises `VSCodeAvailabilityError`
with the status message when the availability check fails. -/
def ensure_vscode_available (env : Env) : List Event × Except Exc Unit :=
  let r := check_vscode_availability env
  (r.1, if r.2.1 then .ok () else .error (.availability r.2.2))

/-- Events emitted by the two availability probes. -/
def probeTrace (env : Env) : List Event :=
  (check_code_command env).1 ++ (check_vscode_api env).1

/-- Both availability checks pass. -/
def availOk (env : Env) : Bool :=
  (check_code_command env).2 && (check_vscode_api env).2

theorem probeTrace_cases (env : Env) :
    probeTrace env =
      [.procRun ["code", "--version"] 5, .httpGet (VSCODE_HTTP_URL ++ "/health") 3] ∨
    probeTrace env =
      [.procRun ["code", "--version"] 5, .httpGet (VSCODE_HTTP_URL ++ "/health") 3,
       .sockConnect "localhost" 8090 2] := by
  unfold probeTrace check_code_command check_vscode_api
  cases env.healthResp <;> simp

theorem ensure_eq (env : Env) :
    ensure_vscode_available env =
      (probeTrace env,
       if availOk env then .ok ()
       else .error (.availability (check_vscode_availability env).2.2)) := by
  unfold ensure_vscode_available check_vscode_availability probeTrace availOk
  cases hc : (check_code_command env).2 <;> cases ha : (check_vscode_api env).2 <;> simp [hc, ha]

/-- The handler corresponding to each wrapper's `except` clauses:
`VSCodeAvailabilityError` is returned as its own message, any other exception
is formatted by `fmt`; either way the message is displayed with
`display_rich_error` and returned. -/
def runHandler (fmt : String → String) : List Event × Except Exc String → ToolOut
  | (tr, .ok s) => ⟨s, tr⟩
  | (tr, .error (.availability m)) => ⟨m, tr ++ [.richError m]⟩
  | (tr, .error (.otherExc m)) =>
      let s := fmt m
      ⟨s, tr ++ [.richError s]⟩

/-! ## vscode_get_context (toolstobe.py lines 113-144) -/

/-- Exception formatter of vscode_get_context (line 143). -/
def fmt_get_context (m : String) : String := "Error getting VS Code context: " ++ m

/-- The context_info string of vscode_get_context (lines 127-132); raises
when a `.get` on a non-dict or `len()` on a non-sized value would. -/
def context_info_str (ctx : Json) : Except String String :=
  match pyGet ctx "activeFile" (Json.str "None") with
  | .error m => .error m
  | .ok af =>
  match pyGet ctx "language" (Json.str "Unknown") with
  | .error m => .error m
  | .ok lang =>
  match pyGet ctx "workspace" (Json.str "None") with
  | .error m => .error m
  | .ok ws =>
  match pyGet ctx "selection" (Json.obj []) with
  | .error m => .error m
  | .ok sel =>
  match pyGet sel "text" (Json.str "No selection") with
  | .error m => .error m
  | .ok selText =>
  match pyGet ctx "openTabs" (Json.arr []) with
  | .error m => .error m
  | .ok tabs =>
  match pyLen tabs with
  | .error m => .error m
  | .ok nTabs =>
    .ok ("[bold cyan]VS Code Context:[/bold cyan]\n[bold]Active File:[/bold] " ++ pyStr af ++
         "\n[bold]Language:[/bold] " ++ pyStr lang ++
         "\n[bold]Workspace:[/bold] " ++ pyStr ws ++
         "\n[bold]Selection:[/bold] " ++ pyStr selText ++
         "\n[bold]Open Tabs:[/bold] " ++ toString nTabs ++ " tabs")

/-- The `try` block of vscode_get_context. -/
def get_context_body (env : Env) : List Event × Except Exc String :=
  let av := ensure_vscode_available env
  match av.2 with
  | .error e => (av.1, .error e)
  | .ok _ =>
    let t1 := av.1 ++ [.httpGet (VSCODE_HTTP_URL ++ "/context") 10]
    match env.contextResp with
    | .error m => (t1, .error (.otherExc m))
    | .ok r =>
      if r.status == 200 then
        match r.body with
        | none => (t1, .error (.otherExc jsonDecodeErr))
        | some ctx =>
          match context_info_str ctx with
          | .error m => (t1, .error (.otherExc m))
          | .ok info => (t1 ++ [.printPanel info], .ok info)
      else
        let msg := fmt_get_context ("HTTP " ++ toString r.status)
        (t1 ++ [.richError msg], .ok msg)

/-- vscode_get_context: the try block with its except clauses applied. -/
def vscode_get_context (env : Env) : ToolOut :=
  runHandler fmt_get_context (get_context_body env)

/-! ## vscode_get_selection (toolstobe.py lines 147-211) -/

/-- Exception formatter of vscode_get_selection (line 210). -/
def fmt_get_selection (m : String) : String := "Error getting selection context: " ++ m

/-- Error message displayed when no editor is active (line 161). -/
def noEditorMsg : String := "No active editor in VS Code"

/-- Success return of vscode_get_selection (line 202). -/
def selDisplayedMsg : String := "VS Code selection context displayed above"

/-- The mojibake arrow the source prints before selected lines (line 196). -/
def arrowMark : String := "‚Üí"

/-- Python `v != "lit"` for a JSON-derived `v` (strings compare by value,
any other type is unequal to a string). -/
def pyNeStr (j : Json) (t : String) : Bool :=
  match j with
  | .str s => !(s == t)
  | _ => true

/-- The Selection Info panel string (lines 169-173). -/
def selection_panel1 (sel ci fi lang : Json) : Except String String :=
  match pyGet ci "totalLines" (Json.str "Unknown") with
  | .error m => .error m
  | .ok tl =>
  match pyGet sel "startLine" (Json.str "Unknown") with
  | .error m => .error m
  | .ok sl =>
  match pyGet sel "endLine" (Json.str "Unknown") with
  | .error m => .error m
  | .ok el =>
  match pyGet sel "startColumn" (Json.str "Unknown") with
  | .error m => .error m
  | .ok sc =>
  match pyGet sel "endColumn" (Json.str "Unknown") with
  | .error m => .error m
  | .ok ec =>
    .ok ("[bold]File:[/bold] " ++ pyStr fi ++
         "\n[bold]Language:[/bold] " ++ pyStr lang ++
         "\n[bold]Total Lines:[/bold] " ++ pyStr tl ++
         "\n[bold]Selection Lines:[/bold] " ++ pyStr sl ++ " to " ++ pyStr el ++
         "\n[bold]Columns:[/bold] " ++ pyStr sc ++ " to " ++ pyStr ec)

/-- The Context Lines display string (lines 189-198), one rendered line per
`line_info` element. -/
def context_lines_str : List Json → Except String String
  | [] => .ok ""
  | li :: rest =>
    match pyGet li "lineNumber" (Json.num 0) with
    | .error m => .error m
    | .ok lnJ =>
    match pyGet li "content" (Json.str "") with
    | .error m => .error m
    | .ok cont =>
    match pyGet li "isSelected" (Json.bool false) with
    | .error m => .error m
    | .ok isSel =>
    match pyFmt3d lnJ with
    | .error m => .error m
    | .ok lnS =>
    let line :=
      if pyTruthy isSel then
        "[bold yellow]" ++ arrowMark ++ " " ++ lnS ++ ":[/bold yellow] " ++ pyStr cont ++ "\n"
      else
        "   " ++ lnS ++ ": " ++ pyStr cont ++ "\n"
    match context_lines_str rest with
    | .error m => .error m
    | .ok restS => .ok (line ++ restS)

/-- Everything vscode_get_selection does after receiving a 200 response with
JSON body `ctx` (lines 160-202): the events printed and either the returned
string or a raised exception message. -/
def selection_render (ctx : Json) : List Event × Except String String :=
  match pyGet ctx "hasActiveEditor" (Json.bool false) with
  | .error m => ([], .error m)
  | .ok ha =>
  if !(pyTruthy ha) then ([.richError noEditorMsg], .ok noEditorMsg)
  else
  match pyGet ctx "selection" (Json.obj []) with
  | .error m => ([], .error m)
  | .ok sel =>
  match pyGet ctx "activeFile" (Json.str "Unknown file") with
  | .error m => ([], .error m)
  | .ok fi =>
  match pyGet ctx "language" (Json.str "Unknown") with
  | .error m => ([], .error m)
  | .ok lang =>
  match pyGet ctx "context" (Json.obj []) with
  | .error m => ([], .error m)
  | .ok ci =>
  match selection_panel1 sel ci fi lang with
  | .error m => ([], .error m)
  | .ok p1 =>
  match pyGet sel "text" (Json.str "No selection") with
  | .error m => ([.printPanel p1], .error m)
  | .ok st =>
  let t2 : List Event := if pyNeStr st "No selection" then [.printPanel (pyStr st)] else []
  match pyGet ci "lines" (Json.arr []) with
  | .error m => ([.printPanel p1] ++ t2, .error m)
  | .ok lines =>
  if pyTruthy lines then
    match pyToList lines with
    | .error m => ([.printPanel p1] ++ t2, .error m)
    | .ok ls =>
      match context_lines_str ls with
      | .error m => ([.printPanel p1] ++ t2, .error m)
      | .ok cd => ([.printPanel p1] ++ t2 ++ [.printPanel cd], .ok selDisplayedMsg)
  else ([.printPanel p1] ++ t2, .ok selDisplayedMsg)

/-- The `try` block of vscode_get_selection. -/
def get_selection_body (env : Env) : List Event × Except Exc String :=
  let av := ensure_vscode_available env
  match av.2 with
  | .error e => (av.1, .error e)
  | .ok _ =>
    let t1 := av.1 ++ [.httpGet (VSCODE_HTTP_URL ++ "/selection-context") 10]
    match env.selectionResp with
    | .error m => (t1, .error (.otherExc m))
    | .ok r =>
      if r.status == 200 then
        match r.body with
        | none => (t1, .error (.otherExc jsonDecodeErr))
        | some ctx =>
          let rd := selection_render ctx
          (t1 ++ rd.1,
           match rd.2 with
           | .ok s => .ok s
           | .error m => .error (.otherExc m))
      else
        let msg := fmt_get_selection ("HTTP " ++ toString r.status)
        (t1 ++ [.richError msg], .ok msg)

/-- vscode_get_selection: the try block with its except clauses applied. -/
def vscode_get_selection (env : Env) : ToolOut :=
  runHandler fmt_get_selection (get_selection_body env)

/-! ## vscode_list_files (toolstobe.py lines 214-262) -/

/-- Exception formatter of vscode_list_files (line 261). -/
def fmt_list_files (m : String) : String := "Error listing workspace files: " ++ m

/-- Error message for an empty result (line 238). -/
def noFilesMsg (pattern : String) : String :=
  "No files found matching pattern \x27" ++ pattern ++ "\x27"

/-- Success return of vscode_list_files (line 253). -/
def foundMsg (total : Json) (pattern : String) : String :=
  "Found " ++ pyStr total ++ " files matching pattern \x27" ++ pattern ++
  "\x27 (displayed in panel above)"

/-- The file list actually displayed (lines 241-245): the first 50 files
when the reported total exceeded 50, all of them otherwise. -/
def listFilesDisplay (xs : List Json) (gt50 : Bool) : List Json :=
  if gt50 then xs.take 50 else xs

/-- The truncation note (line 243). -/
def truncNote (total : Json) : Except String String :=
  match pySubInt total 50 with
  | .ok d => .ok ("\n[dim]... and " ++ pyStr d ++ " more files[/dim]")
  | .error m => .error m

/-- The numbered lines of the files panel (line 248). -/
def filesListLines (xs : List Json) : List String :=
  xs.enum.map fun p => fmt2d (p.1 + 1) ++ ". " ++ pyStr p.2

/-- The `try` block of vscode_list_files. -/
def list_files_body (env : Env) (pattern : String) : List Event × Except Exc String :=
  let av := ensure_vscode_available env
  match av.2 with
  | .error e => (av.1, .error e)
  | .ok _ =>
    let t1 := av.1 ++ [.httpGet (VSCODE_HTTP_URL ++ "/workspace/files") 10]
    match env.filesResp with
    | .error m => (t1, .error (.otherExc m))
    | .ok r =>
      if r.status == 200 then
        match r.body with
        | none => (t1, .error (.otherExc jsonDecodeErr))
        | some data =>
        match pyGet data "files" (Json.arr []) with
        | .error m => (t1, .error (.otherExc m))
        | .ok files =>
        match pyGet data "total" (Json.num 0) with
        | .error m => (t1, .error (.otherExc m))
        | .ok total =>
        if pyEqZero total then
          let msg := noFilesMsg pattern
          (t1 ++ [.richError msg], .ok msg)
        else
          match pyGtInt total 50 with
          | .error m => (t1, .error (.otherExc m))
          | .ok gt =>
          match pyToList files with
          | .error m => (t1, .error (.otherExc m))
          | .ok xs =>
          match (if gt then truncNote total else .ok "") with
          | .error m => (t1, .error (.otherExc m))
          | .ok tmsg =>
          let filesList := String.intercalate "\n" (filesListLines (listFilesDisplay xs gt))
          let filesInfo := "[bold]Pattern:[/bold] " ++ pattern ++
            "\n[bold]Total Found:[/bold] " ++ pyStr total ++ "\n\n" ++ filesList ++ tmsg
          (t1 ++ [.printPanel filesInfo], .ok (foundMsg total pattern))
      else
        let msg := fmt_list_files ("HTTP " ++ toString r.status)
        (t1 ++ [.richError msg], .ok msg)

/-- vscode_list_files: the try block with its except clauses applied. -/
def vscode_list_files (env : Env) (pattern : String) : ToolOut :=
  runHandler fmt_list_files (list_files_body env pattern)

/-! ## vscode_read_file (toolstobe.py lines 266-317) -/

/-- Permission request description of vscode_read_file (line 282). -/
def readDesc (fp : String) : String := "Read file: " ++ fp

/-- Denial message of vscode_read_file (line 284). -/
def deniedReadMsg : String := "Permission denied for file read operation"

/-- Exception formatter of vscode_read_file (line 316). -/
def fmt_read_file (fp m : String) : String := "Error reading file " ++ fp ++ ": " ++ m

/-- The `try` block of vscode_read_file.  The start/end line arguments only
shape the request query, which events do not record. -/
def read_file_body (env : Env) (fp : String) : List Event × Except Exc String :=
  let av := ensure_vscode_available env
  match av.2 with
  | .error e => (av.1, .error e)
  | .ok _ =>
    let granted := env.getPermission .FILE_OPERATIONS (readDesc fp)
    let t1 := av.1 ++ [.permCheck .FILE_OPERATIONS (readDesc fp) granted]
    if !granted then
      (t1 ++ [.richError deniedReadMsg], .ok deniedReadMsg)
    else
      let t2 := t1 ++ [.httpGet (VSCODE_HTTP_URL ++ "/file/read") 10]
      match env.readResp with
      | .error m => (t2, .error (.otherExc m))
      | .ok r =>
        if r.status == 200 then
          match r.body with
          | none => (t2, .error (.otherExc jsonDecodeErr))
          | some data =>
            match pyGet data "content" (Json.str "No content") with
            | .error m => (t2, .error (.otherExc m))
            | .ok content =>
              (t2 ++ [.printPanel (pyStr content)],
               .ok ("File content for " ++ fp ++ " displayed above"))
        else
          let msg := fmt_read_file fp ("HTTP " ++ toString r.status)
          (t2 ++ [.richError msg], .ok msg)

/-- vscode_read_file: the try block with its except clauses applied. -/
def vscode_read_file (env : Env) (fp : String) (_startLine : Int) (_endLine : Option Int) : ToolOut :=
  runHandler (fmt_read_file fp) (read_file_body env fp)

/-! ## vscode_create_file (toolstobe.py lines 320-391) -/

/-- Permission request description of vscode_create_file (line 336). -/
def createDesc (fn : String) : String := "Create file: " ++ fn

/-- Denial message of vscode_create_file (line 338). -/
def deniedCreateMsg : String := "Permission denied for file creation"

/-- Exception formatter of vscode_create_file (lines 384 and 390). -/
def fmt_create_file (fn m : String) : String := "Error creating file " ++ fn ++ ": " ++ m

/-- Success message of vscode_create_file (line 380). -/
def successCreateMsg (fn : String) : String := "Successfully created file: " ++ fn

/-- The `try` block of vscode_create_file: permission gate, console preview
panel, optional GET `/preview` whose outcome is swallowed (lines 356-369),
then POST `/file/create` deciding the result. -/
def create_file_body (env : Env) (fn content : String) : List Event × Except Exc String :=
  let av := ensure_vscode_available env
  match av.2 with
  | .error e => (av.1, .error e)
  | .ok _ =>
    let granted := env.getPermission .FILE_WRITE (createDesc fn)
    let t1 := av.1 ++ [.permCheck .FILE_WRITE (createDesc fn) granted]
    if !granted then
      (t1 ++ [.richError deniedCreateMsg], .ok deniedCreateMsg)
    else
      let t3 := t1 ++ [.printPanel content, .httpGet (VSCODE_HTTP_URL ++ "/preview") 10,
                       .httpPost (VSCODE_HTTP_URL ++ "/file/create") 10]
      match env.createResp with
      | .error m => (t3, .error (.otherExc m))
      | .ok r =>
        if r.status == 200 then
          let msg := successCreateMsg fn
          (t3 ++ [.richSuccess msg], .ok msg)
        else
          match r.body with
          | none => (t3, .error (.otherExc jsonDecodeErr))
          | some data =>
            match pyGet data "error" (Json.str "Unknown error") with
            | .error m => (t3, .error (.otherExc m))
            | .ok ev =>
              let msg := fmt_create_file fn (pyStr ev)
              (t3 ++ [.richError msg], .ok msg)

/-- vscode_create_file: the try block with its except clauses applied. -/
def vscode_create_file (env : Env) (fn content : String) : ToolOut :=
  runHandler (fmt_create_file fn) (create_file_body env fn content)

/-- The returned string of vscode_create_file as a function of the
`/file/create` POST response alone (lines 372-391 and the except clauses). -/
def createOutcome (fn : String) (resp : HttpResult) : String :=
  match resp with
  | .error m => fmt_create_file fn m
  | .ok r =>
    if r.status == 200 then successCreateMsg fn
    else
      match r.body with
      | none => fmt_create_file fn jsonDecodeErr
      | some data =>
        match pyGet data "error" (Json.str "Unknown error") with
        | .error m => fmt_create_file fn m
        | .ok ev => fmt_create_file fn (pyStr ev)

/-! ## vscode_edit_file (toolstobe.py lines 394-463) -/

/-- Permission request description of vscode_edit_file (line 411). -/
def editDesc (fn : String) : String := "Edit file: " ++ fn

/-- Denial message of vscode_edit_file (line 413). -/
def deniedEditMsg : String := "Permission denied for file edit operation"

/-- Exception formatter of vscode_edit_file (lines 456 and 462). -/
def fmt_edit_file (fn m : String) : String := "Error editing file " ++ fn ++ ": " ++ m

/-- Success message of vscode_edit_file (line 452). -/
def successEditMsg (fn : String) : String := "Successfully edited file: " ++ fn

/-- The Proposed Changes panel content (line 417). -/
def proposedChanges (fn oldText newText : String) : String :=
  "[bold]File:[/bold] " ++ fn ++ "\n[bold red]- Old text:[/bold red]\n" ++ oldText ++
  "\n\n[bold green]+ New text:[/bold green]\n" ++ newText

/-- The `try` block of vscode_edit_file: permission gate, console diff panel,
optional GET `/diff` whose outcome is swallowed (lines 422-437), then POST
`/file/edit` deciding the result. -/
def edit_file_body (env : Env) (fn oldText newText : String) : List Event × Except Exc String :=
  let av := ensure_vscode_available env
  match av.2 with
  | .error e => (av.1, .error e)
  | .ok _ =>
    let granted := env.getPermission .FILE_WRITE (editDesc fn)
    let t1 := av.1 ++ [.permCheck .FILE_WRITE (editDesc fn) granted]
    if !granted then
      (t1 ++ [.richError deniedEditMsg], .ok deniedEditMsg)
    else
      let t3 := t1 ++ [.printPanel (proposedChanges fn oldText newText),
                       .httpGet (VSCODE_HTTP_URL ++ "/diff") 10,
                       .httpPost (VSCODE_HTTP_URL ++ "/file/edit") 10]
      match env.editResp with
      | .error m => (t3, .error (.otherExc m))
      | .ok r =>
        if r.status == 200 then
          let msg := successEditMsg fn
          (t3 ++ [.richSuccess msg], .ok msg)
        else
          match r.body with
          | none => (t3, .error (.otherExc jsonDecodeErr))
          | some data =>
            match pyGet data "error" (Json.str "Unknown error") with
            | .error m => (t3, .error (.otherExc m))
            | .ok ev =>
              let msg := fmt_edit_file fn (pyStr ev)
              (t3 ++ [.richError msg], .ok msg)

/-- vscode_edit_file: the try block with its except clauses applied. -/
def vscode_edit_file (env : Env) (fn oldText newText : String) : ToolOut :=
  runHandler (fmt_edit_file fn) (edit_file_body env fn oldText newText)

/-- The returned string of vscode_edit_file as a function of the `/file/edit`
POST response alone (lines 440-463 and the except clauses). -/
def editOutcome (fn : String) (resp : HttpResult) : String :=
  match resp with
  | .error m => fmt_edit_file fn m
  | .ok r =>
    if r.status == 200 then successEditMsg fn
    else
      match r.body with
      | none => fmt_edit_file fn jsonDecodeErr
      | some data =>
        match pyGet data "error" (Json.str "Unknown error") with
        | .error m => fmt_edit_file fn m
        | .ok ev => fmt_edit_file fn (pyStr ev)

/-! ## vscode_health_check (toolstobe.py lines 466-494) -/

/-- Failure return of vscode_health_check (line 494). -/
def notReadyRet : String := "VS Code is not available - see requirements above"

/-- Success return of vscode_health_check (line 483). -/
def readyRet : String := "VS Code is available and ready for use"

/-- The health status panel content (lines 475-479). -/
def healthStatusInfo (c a : Bool) : String :=
  "[bold cyan]VS Code Health Check:[/bold cyan]\n\n[bold]Code Command:[/bold] " ++
  (if c then vMark ++ " Available" else xMark ++ " Not found") ++
  "\n[bold]Extension API (localhost:8090):[/bold] " ++
  (if a then vMark ++ " Connected" else xMark ++ " Not accessible") ++
  "\n[bold]Overall Status:[/bold] " ++
  (if c && a then vMark ++ " Ready" else xMark ++ " Not ready")

/-- The help text printed when not ready (lines 487-491). -/
def healthHelpText (c a : Bool) : String :=
  "\n[dim]To use VS Code tools:[/dim]\n" ++
  (if !c then "- Install VS Code and ensure \x27code\x27 command is in PATH\n" else "") ++
  (if !a then "- Start VS Code extension API on localhost:8090\n" else "")

/-- vscode_health_check (lines 466-494): no try/except, no permission gate;
runs both availability checks and prints a status panel. -/
def vscode_health_check (env : Env) : ToolOut :=
  let c := check_code_command env
  let a := check_vscode_api env
  let info := healthStatusInfo c.2 a.2
  if c.2 && a.2 then
    ⟨readyRet, c.1 ++ a.1 ++ [.printPanel info]⟩
  else
    ⟨notReadyRet, c.1 ++ a.1 ++ [.printPanel info, .printText (healthHelpText c.2 a.2)]⟩

/-! ## Event classification and shared trace lemmas -/

/-- The nine endpoint URLs the module ever contacts. -/
def allowedURLs : List String :=
  [VSCODE_HTTP_URL ++ "/health", VSCODE_HTTP_URL ++ "/context",
   VSCODE_HTTP_URL ++ "/selection-context", VSCODE_HTTP_URL ++ "/workspace/files",
   VSCODE_HTTP_URL ++ "/file/read", VSCODE_HTTP_URL ++ "/file/create",
   VSCODE_HTTP_URL ++ "/file/edit", VSCODE_HTTP_URL ++ "/preview",
   VSCODE_HTTP_URL ++ "/diff"]

/-- Every outbound call event carries a timeout between 2 and 10 seconds. -/
def timeoutOk : Event → Bool
  | .procRun _ t => decide (2 ≤ t ∧ t ≤ 10)
  | .sockConnect _ _ t => decide (2 ≤ t ∧ t ≤ 10)
  | .httpGet _ t => decide (2 ≤ t ∧ t ≤ 10)
  | .httpPost _ t => decide (2 ≤ t ∧ t ≤ 10)
  | _ => true

/-- Every HTTP request event targets one of the nine allowed URLs. -/
def urlOk : Event → Bool
  | .httpGet u _ => allowedURLs.contains u
  | .httpPost u _ => allowedURLs.contains u
  | _ => true

/-- Recognises a permission query event. -/
def isPermEv : Event → Bool
  | .permCheck _ _ _ => true
  | _ => false

/-- Recognises an availability-probe event: the subprocess run, the socket
connect, or the GET to `/health`. -/
def isProbeEv : Event → Bool
  | .procRun _ _ => true
  | .sockConnect _ _ _ => true
  | .httpGet u _ => u == VSCODE_HTTP_URL ++ "/health"
  | _ => false

/-- Recognises an HTTP request event other than the probe GET `/health`. -/
def isReqEv : Event → Bool
  | .httpGet u _ => !(u == VSCODE_HTTP_URL ++ "/health")
  | .httpPost _ _ => true
  | _ => false

/-- Recognises an HTTP POST event. -/
def isPostEv : Event → Bool
  | .httpPost _ _ => true
  | _ => false

/-- Recognises a console-output event. -/
def isPrintEv : Event → Bool
  | .printPanel _ => true
  | .printText _ => true
  | .richError _ => true
  | .richSuccess _ => true
  | _ => false

/-- Recognises a request to a file-content or preview endpoint
(`/file/read`, `/file/create`, `/file/edit`, `/preview`, `/diff`). -/
def isFileOrPreviewReq : Event → Bool
  | .httpGet u _ =>
      u == VSCODE_HTTP_URL ++ "/file/read" || u == VSCODE_HTTP_URL ++ "/preview" ||
      u == VSCODE_HTTP_URL ++ "/diff"
  | .httpPost u _ =>
      u == VSCODE_HTTP_URL ++ "/file/create" || u == VSCODE_HTTP_URL ++ "/file/edit"
  | _ => false

/-- Combined per-event invariant used by several claims. -/
def evBase (e : Event) : Bool := timeoutOk e && urlOk e

/-- `evBase` plus the absence of permission queries. -/
def evBaseNP (e : Event) : Bool := evBase e && !(isPermEv e)

/-- After any event satisfying `trigger`, no later event satisfies
`forbidden`. -/
def noLater (trigger forbidden : Event → Bool) : List Event → Bool
  | [] => true
  | e :: rest =>
      (if trigger e then rest.all (fun x => !(forbidden x)) else true) &&
      noLater trigger forbidden rest

/-- The last event of a trace, if any. -/
def lastEv : List Event → Option Event
  | [] => none
  | [e] => some e
  | _ :: e :: rest => lastEv (e :: rest)

/-- The trace is nonempty and ends in a console-output event. -/
def lastIsPrint (tr : List Event) : Bool :=
  match lastEv tr with
  | some e => isPrintEv e
  | none => false

/-- The returned string was displayed through `display_rich_error` as the
last act of the call. -/
def isErrRet (o : ToolOut) : Bool :=
  decide (lastEv o.trace = some (Event.richError o.ret))

theorem all_imp {p q : Event → Bool} (h : ∀ e, p e = true → q e = true) :
    ∀ tr : List Event, tr.all p = true → tr.all q = true := by
  intro tr htr
  simp only [List.all_eq_true] at htr ⊢
  exact fun e he => h e (htr e he)

theorem runHandler_trace_all {P : Event → Bool} (hrich : ∀ s, P (.richError s) = true)
    (fmt : String → String) (pr : List Event × Except Exc String)
    (h : pr.1.all P = true) : ((runHandler fmt pr).trace.all P) = true := by
  obtain ⟨tr, r⟩ := pr
  rcases r with e | s
  · rcases e with m | m <;> simp_all [runHandler]
  · simpa [runHandler] using h

theorem probeTrace_all (env : Env) (P : Event → Bool)
    (h1 : P (.procRun ["code", "--version"] 5) = true)
    (h2 : P (.httpGet (VSCODE_HTTP_URL ++ "/health") 3) = true)
    (h3 : P (.sockConnect "localhost" 8090 2) = true) :
    (probeTrace env).all P = true := by
  rcases probeTrace_cases env with h | h <;> simp [h, h1, h2, h3]

theorem evBaseNP_richError (s : String) : evBaseNP (.richError s) = true := rfl

theorem evBaseNP_richSuccess (s : String) : evBaseNP (.richSuccess s) = true := rfl

theorem evBaseNP_printPanel (s : String) : evBaseNP (.printPanel s) = true := rfl

theorem evBaseNP_printText (s : String) : evBaseNP (.printText s) = true := rfl

theorem evBase_of_NP (e : Event) (h : evBaseNP e = true) : evBase e = true := by
  unfold evBaseNP at h
  exact (Bool.and_eq_true _ _ ▸ h).1

theorem evBase_permCheck (p : PermissionType) (d : String) (g : Bool) :
    evBase (.permCheck p d g) = true := rfl

theorem evBaseNP_endpoint_get (path : String) (hmem : (VSCODE_HTTP_URL ++ path) ∈ allowedURLs) :
    evBaseNP (.httpGet (VSCODE_HTTP_URL ++ path) 10) = true := by
  simp [evBaseNP, evBase, timeoutOk, urlOk, isPermEv, hmem]

theorem evBaseNP_endpoint_post (path : String) (hmem : (VSCODE_HTTP_URL ++ path) ∈ allowedURLs) :
    evBaseNP (.httpPost (VSCODE_HTTP_URL ++ path) 10) = true := by
  simp [evBaseNP, evBase, timeoutOk, urlOk, isPermEv, hmem]

theorem get_context_body_all (env : Env) :
    ((get_context_body env).1.all evBaseNP) = true := by
  have hp : (probeTrace env).all evBaseNP = true :=
    probeTrace_all env _ (by decide) (by decide) (by decide)
  unfold get_context_body
  rw [ensure_eq]
  repeat' split
  all_goals
    simp_all [List.all_append, evBaseNP_richError, evBaseNP_printPanel,
      evBaseNP_endpoint_get "/context" (by decide)]

theorem selection_render_all (ctx : Json) (P : Event → Bool)
    (hpr : ∀ s, P (.printPanel s) = true) (hre : ∀ s, P (.richError s) = true) :
    ((selection_render ctx).1.all P) = true := by
  unfold selection_render
  repeat' split
  all_goals simp_all [List.all_append]

theorem get_selection_body_all (env : Env) :
    ((get_selection_body env).1.all evBaseNP) = true := by
  have hp : (probeTrace env).all evBaseNP = true :=
    probeTrace_all env _ (by decide) (by decide) (by decide)
  unfold get_selection_body
  rw [ensure_eq]
  repeat' split
  all_goals
    simp_all [List.all_append, evBaseNP_richError, evBaseNP_printPanel,
      evBaseNP_endpoint_get "/selection-context" (by decide),
      selection_render_all _ evBaseNP evBaseNP_printPanel evBaseNP_richError]

theorem list_files_body_all (env : Env) (pattern : String) :
    ((list_files_body env pattern).1.all evBaseNP) = true := by
  have hp : (probeTrace env).all evBaseNP = true :=
    probeTrace_all env _ (by decide) (by decide) (by decide)
  unfold list_files_body
  rw [ensure_eq]
  repeat' split
  all_goals
    simp_all [List.all_append, evBaseNP_richError, evBaseNP_printPanel,
      evBaseNP_endpoint_get "/workspace/files" (by decide)]

theorem read_file_body_all (env : Env) (fp : String) :
    ((read_file_body env fp).1.all evBase) = true := by
  have hp : (probeTrace env).all evBase = true :=
    probeTrace_all env _ (by decide) (by decide) (by decide)
  unfold read_file_body
  rw [ensure_eq]
  cases hg : env.getPermission PermissionType.FILE_OPERATIONS (readDesc fp)
  all_goals repeat' split
  all_goals
    simp_all [List.all_append, evBase_permCheck,
      evBase_of_NP _ (evBaseNP_richError _), evBase_of_NP _ (evBaseNP_printPanel _),
      evBase_of_NP _ (evBaseNP_endpoint_get "/file/read" (by decide))]

theorem create_file_body_all (env : Env) (fn content : String) :
    ((create_file_body env fn content).1.all evBase) = true := by
  have hp : (probeTrace env).all evBase = true :=
    probeTrace_all env _ (by decide) (by decide) (by decide)
  unfold create_file_body
  rw [ensure_eq]
  cases hg : env.getPermission PermissionType.FILE_WRITE (createDesc fn)
  all_goals repeat' split
  all_goals
    simp_all [List.all_append, evBase_permCheck,
      evBase_of_NP _ (evBaseNP_richError _), evBase_of_NP _ (evBaseNP_printPanel _),
      evBase_of_NP _ (evBaseNP_richSuccess _),
      evBase_of_NP _ (evBaseNP_endpoint_get "/preview" (by decide)),
      evBase_of_NP _ (evBaseNP_endpoint_post "/file/create" (by decide))]

theorem edit_file_body_all (env : Env) (fn oldText newText : String) :
    ((edit_file_body env fn oldText newText).1.all evBase) = true := by
  have hp : (probeTrace env).all evBase = true :=
    probeTrace_all env _ (by decide) (by decide) (by decide)
  unfold edit_file_body
  rw [ensure_eq]
  cases hg : env.getPermission PermissionType.FILE_WRITE (editDesc fn)
  all_goals repeat' split
  all_goals
    simp_all [List.all_append, evBase_permCheck,
      evBase_of_NP _ (evBaseNP_richError _), evBase_of_NP _ (evBaseNP_printPanel _),
      evBase_of_NP _ (evBaseNP_richSuccess _),
      evBase_of_NP _ (evBaseNP_endpoint_get "/diff" (by decide)),
      evBase_of_NP _ (evBaseNP_endpoint_post "/file/edit" (by decide))]

theorem get_context_trace_all (env : Env) :
    ((vscode_get_context env).trace.all evBaseNP) = true :=
  runHandler_trace_all evBaseNP_richError _ _ (get_context_body_all env)

theorem get_selection_trace_all (env : Env) :
    ((vscode_get_selection env).trace.all evBaseNP) = true :=
  runHandler_trace_all evBaseNP_richError _ _ (get_selection_body_all env)

theorem list_files_trace_all (env : Env) (pattern : String) :
    ((vscode_list_files env pattern).trace.all evBaseNP) = true :=
  runHandler_trace_all evBaseNP_richError _ _ (list_files_body_all env pattern)

theorem read_file_trace_all (env : Env) (fp : String) (sl : Int) (el : Option Int) :
    ((vscode_read_file env fp sl el).trace.all evBase) = true :=
  runHandler_trace_all (fun s => evBase_of_NP _ (evBaseNP_richError s)) _ _
    (read_file_body_all env fp)

theorem create_file_trace_all (env : Env) (fn content : String) :
    ((vscode_create_file env fn content).trace.all evBase) = true :=
  runHandler_trace_all (fun s => evBase_of_NP _ (evBaseNP_richError s)) _ _
    (create_file_body_all env fn content)

theorem edit_file_trace_all (env : Env) (fn oldText newText : String) :
    ((vscode_edit_file env fn oldText newText).trace.all evBase) = true :=
  runHandler_trace_all (fun s => evBase_of_NP _ (evBaseNP_richError s)) _ _
    (edit_file_body_all env fn oldText newText)

theorem health_check_trace_all (env : Env) :
    ((vscode_health_check env).trace.all evBaseNP) = true := by
  have hp : (probeTrace env).all evBaseNP = true :=
    probeTrace_all env _ (by decide) (by decide) (by decide)
  have hp2 : ((check_code_command env).1 ++ (check_vscode_api env).1).all evBaseNP = true := hp
  unfold vscode_health_check
  cases hc : (check_code_command env).2 <;> cases ha : (check_vscode_api env).2 <;>
    simp_all [List.all_append, evBaseNP_printPanel, evBaseNP_printText]

theorem timeoutOk_of_base (e : Event) (h : evBase e = true) : timeoutOk e = true := by
  simp [evBase] at h
  exact h.1

theorem urlOk_of_base (e : Event) (h : evBase e = true) : urlOk e = true := by
  simp [evBase] at h
  exact h.2

/-! ## Concrete environments used as witnesses -/

/-- An HTTP 200 response with an empty JSON object body. -/
def ok200 : HttpResult := .ok ⟨200, some (Json.obj [])⟩

/-- Environment builder: both probes succeed and `/health` answers 200; the
remaining endpoint responses and the permission oracle's constant answer are
the arguments.  Field order: codeRunResult, sockConnectResult, healthResp,
contextResp, selectionResp, filesResp, readResp, previewResp, createResp,
diffResp, editResp, getPermission. -/
def baseEnvWith (ctxR selR filesR readR prevR createR diffR editR : HttpResult)
    (perm : Bool) : Env :=
  ⟨.ok 0, .ok 0, ok200, ctxR, selR, filesR, readR, prevR, createR, diffR, editR,
   fun _ _ => perm⟩

/-- Fully healthy environment: every endpoint answers 200 with an empty JSON
object, every permission is granted. -/
def goodEnv : Env := baseEnvWith ok200 ok200 ok200 ok200 ok200 ok200 ok200 ok200 true

/-- Environment in which the HTTP service is unreachable: every request
raises a `ConnectionError` and the fallback socket probe finds the port
closed; the `code` command itself exists. -/
def downEnv : Env :=
  ⟨.ok 0, .ok 1, .error "ConnectionError", .error "ConnectionError", .error "ConnectionError",
   .error "ConnectionError", .error "ConnectionError", .error "ConnectionError",
   .error "ConnectionError", .error "ConnectionError", .error "ConnectionError",
   fun _ _ => true⟩

/-! ## Claim theorems -/

/-- C6: every outbound network call of the tool module — each HTTP request,
the subprocess probe and the fallback socket probe — carries a fixed timeout
between 2 and 10 seconds inclusive (in every environment, for all seven
exposed tools).  The embedding is sequential, matching the module's
synchronous, blocking calls. -/
theorem C6_timeouts :
    (∀ env : Env, ((vscode_get_context env).trace.all timeoutOk) = true) ∧
    (∀ env : Env, ((vscode_get_selection env).trace.all timeoutOk) = true) ∧
    (∀ (env : Env) (pattern : String),
      ((vscode_list_files env pattern).trace.all timeoutOk) = true) ∧
    (∀ (env : Env) (fp : String) (sl : Int) (el : Option Int),
      ((vscode_read_file env fp sl el).trace.all timeoutOk) = true) ∧
    (∀ (env : Env) (fn content : String),
      ((vscode_create_file env fn content).trace.all timeoutOk) = true) ∧
    (∀ (env : Env) (fn oldText newText : String),
      ((vscode_edit_file env fn oldText newText).trace.all timeoutOk) = true) ∧
    (∀ env : Env, ((vscode_health_check env).trace.all timeoutOk) = true) := by
  have hNP : ∀ e, evBaseNP e = true → timeoutOk e = true :=
    fun e h => timeoutOk_of_base e (evBase_of_NP e h)
  have hB : ∀ e, evBase e = true → timeoutOk e = true := timeoutOk_of_base
  exact ⟨fun env => all_imp hNP _ (get_context_trace_all env),
    fun env => all_imp hNP _ (get_selection_trace_all env),
    fun env p => all_imp hNP _ (list_files_trace_all env p),
    fun env fp sl el => all_imp hB _ (read_file_trace_all env fp sl el),
    fun env fn c => all_imp hB _ (create_file_trace_all env fn c),
    fun env fn o n => all_imp hB _ (edit_file_trace_all env fn o n),
    fun env => all_imp hNP _ (health_check_trace_all env)⟩

/-- C7: every HTTP request of the module targets the fixed base URL
`http://localhost:8090`, and the set of endpoint paths ever contacted is
exactly /health, /context, /selection-context, /workspace/files, /file/read,
/file/create, /file/edit, /preview and /diff: every request event of every
tool in every environment hits one of those nine URLs, and each of the nine
is contacted by some tool in the healthy environment. -/
theorem C7_endpoints :
    (allowedURLs =
      ["http://localhost:8090/health", "http://localhost:8090/context",
       "http://localhost:8090/selection-context", "http://localhost:8090/workspace/files",
       "http://localhost:8090/file/read", "http://localhost:8090/file/create",
       "http://localhost:8090/file/edit", "http://localhost:8090/preview",
       "http://localhost:8090/diff"]) ∧
    (∀ env : Env, ((vscode_get_context env).trace.all urlOk) = true) ∧
    (∀ env : Env, ((vscode_get_selection env).trace.all urlOk) = true) ∧
    (∀ (env : Env) (pattern : String),
      ((vscode_list_files env pattern).trace.all urlOk) = true) ∧
    (∀ (env : Env) (fp : String) (sl : Int) (el : Option Int),
      ((vscode_read_file env fp sl el).trace.all urlOk) = true) ∧
    (∀ (env : Env) (fn content : String),
      ((vscode_create_file env fn content).trace.all urlOk) = true) ∧
    (∀ (env : Env) (fn oldText newText : String),
      ((vscode_edit_file env fn oldText newText).trace.all urlOk) = true) ∧
    (∀ env : Env, ((vscode_health_check env).trace.all urlOk) = true) ∧
    Event.httpGet (VSCODE_HTTP_URL ++ "/health") 3 ∈ (vscode_health_check goodEnv).trace ∧
    Event.httpGet (VSCODE_HTTP_URL ++ "/context") 10 ∈ (vscode_get_context goodEnv).trace ∧
    Event.httpGet (VSCODE_HTTP_URL ++ "/selection-context") 10 ∈ (vscode_get_selection goodEnv).trace ∧
    Event.httpGet (VSCODE_HTTP_URL ++ "/workspace/files") 10 ∈ (vscode_list_files goodEnv "**/*").trace ∧
    Event.httpGet (VSCODE_HTTP_URL ++ "/file/read") 10 ∈ (vscode_read_file goodEnv "a.py" 1 none).trace ∧
    Event.httpGet (VSCODE_HTTP_URL ++ "/preview") 10 ∈ (vscode_create_file goodEnv "a.py" "x").trace ∧
    Event.httpPost (VSCODE_HTTP_URL ++ "/file/create") 10 ∈ (vscode_create_file goodEnv "a.py" "x").trace ∧
    Event.httpGet (VSCODE_HTTP_URL ++ "/diff") 10 ∈ (vscode_edit_file goodEnv "a.py" "x" "y").trace ∧
    Event.httpPost (VSCODE_HTTP_URL ++ "/file/edit") 10 ∈ (vscode_edit_file goodEnv "a.py" "x" "y").trace := by
  have hNP : ∀ e, evBaseNP e = true → urlOk e = true :=
    fun e h => urlOk_of_base e (evBase_of_NP e h)
  have hB : ∀ e, evBase e = true → urlOk e = true := urlOk_of_base
  refine ⟨by decide,
    fun env => all_imp hNP _ (get_context_trace_all env),
    fun env => all_imp hNP _ (get_selection_trace_all env),
    fun env p => all_imp hNP _ (list_files_trace_all env p),
    fun env fp sl el => all_imp hB _ (read_file_trace_all env fp sl el),
    fun env fn c => all_imp hB _ (create_file_trace_all env fn c),
    fun env fn o n => all_imp hB _ (edit_file_trace_all env fn o n),
    fun env => all_imp hNP _ (health_check_trace_all env),
    by decide, by decide, by decide, by decide, by decide, by decide, by decide,
    by decide, by decide⟩

/-- C9: check_vscode_availability returns `(true, message)` exactly when both
check_code_command and check_vscode_api return true; ensure_vscode_available
raises VSCodeAvailabilityError exactly when at least one of them returns
false, and the attached message identifies which check failed (both-failed,
code-command-failed, or API-failed message). -/
theorem C9_availability (env : Env) :
    ((check_vscode_availability env).2 =
      (if !(check_code_command env).2 && !(check_vscode_api env).2 then (false, bothFailMsg)
       else if !(check_code_command env).2 then (false, codeFailMsg)
       else if !(check_vscode_api env).2 then (false, apiFailMsg)
       else (true, availOkMsg))) ∧
    ((check_vscode_availability env).2.1 = true ↔
      ((check_code_command env).2 = true ∧ (check_vscode_api env).2 = true)) ∧
    ((ensure_vscode_available env).2 = .ok () ↔
      ((check_code_command env).2 = true ∧ (check_vscode_api env).2 = true)) ∧
    ((ensure_vscode_available env).2 =
        .error (.availability (check_vscode_availability env).2.2) ↔
      ¬((check_code_command env).2 = true ∧ (check_vscode_api env).2 = true)) := by
  cases hc : (check_code_command env).2 <;> cases ha : (check_vscode_api env).2 <;>
    simp_all [check_vscode_availability, ensure_vscode_available]

/-- C4 as stated by the spec: with arguments `-p <name>` the CLI prints the
greeting, with `add <a> <b>` on parsing integers it prints the sum line, and
on every other argument list it prints the usage message. -/
def C4_claim : Prop :=
  ∀ (script : String) (args : List String),
    test3_main (script :: args) =
      match args with
      | ["-p", name] => [greetLine name]
      | ["add", a, b] =>
        match pyIntParse a, pyIntParse b with
        | some x, some y => [addLine x y]
        | _, _ => [usageMsg]
      | _ => [usageMsg]

/-- C4 counterexample: on `add x 1`, where `x` does not parse as an integer,
the script prints "Please provide two integers for addition.", not the usage
message the claim requires for argument lists outside the two success
forms. -/
theorem C4_counterexample : ¬ C4_claim :=
  fun h => absurd (h "test3.py" ["add", "x", "1"]) (by decide)

/-- The CLI behaviour as amended: `-p` with a name (further arguments
ignored) greets; `add` with two arguments (further ignored) prints the sum
when both parse as integers and the two-integers error line when either
fails to parse; every other argument list gets the usage message. -/
def cliExpected : List String → List String
  | "-p" :: name :: _ => [greetLine name]
  | "add" :: a :: b :: _ =>
    match pyIntParse a, pyIntParse b with
    | some x, some y => [addLine x y]
    | _, _ => [intErrMsg]
  | _ => [usageMsg]

/-- C4 amended: the CLI prints exactly `Hello, <name>!` when the first
argument is `-p` and a name follows, exactly `<a> + <b> = <a+b>` when the
first argument is `add` and the next two parse as integers, exactly
"Please provide two integers for addition." when the first argument is `add`
with two following arguments of which one fails to parse, and exactly the
usage message for every other argument list (extra trailing arguments are
ignored). -/
theorem C4_amended_cli (script : String) (args : List String) :
    test3_main (script :: args) = cliExpected args := by
  match args with
  | [] => rfl
  | [a1] =>
      by_cases h1 : a1 = "-p"
      · subst h1; rfl
      · by_cases h2 : a1 = "add"
        · subst h2; rfl
        · simp [test3_main, cliExpected, h1, h2]
  | a1 :: a2 :: rest =>
      by_cases h1 : a1 = "-p"
      · subst h1; simp [test3_main, cliExpected]
      · by_cases h2 : a1 = "add"
        · subst h2
          match rest with
          | [] => simp [test3_main, cliExpected]
          | a3 :: rest2 =>
              cases hp1 : pyIntParse a2 <;> cases hp2 : pyIntParse a3 <;>
                simp [test3_main, cliExpected, hp1, hp2]
        · simp [test3_main, cliExpected, h1, h2]

/-- C3 as stated: whenever `/workspace/files` answers 200 with a files list
and a reported total exceeding 50, the displayed listing has exactly 50
entries, the note counts the remaining total - 50 files and the returned
string reports the full total. -/
def C3_claim : Prop :=
  ∀ (env : Env) (pattern : String) (fs : List Json) (n : Int),
    availOk env = true →
    env.filesResp = .ok ⟨200, some (Json.obj [("files", Json.arr fs), ("total", Json.num n)])⟩ →
    50 < n →
    (listFilesDisplay fs true).length = 50 ∧
    truncNote (Json.num n) =
      .ok ("\n[dim]... and " ++ toString (n - 50) ++ " more files[/dim]") ∧
    (vscode_list_files env pattern).ret = foundMsg (Json.num n) pattern

/-- C3 counterexample: a 200 response reporting total 51 while listing a
single file; `files[:50]` then displays one entry, not exactly 50. -/
theorem C3_counterexample : ¬ C3_claim := by
  intro h
  have h2 := h
    (baseEnvWith ok200 ok200
      (.ok ⟨200, some (Json.obj [("files", Json.arr [Json.str "a"]), ("total", Json.num 51)])⟩)
      ok200 ok200 ok200 ok200 ok200 true)
    "p" [Json.str "a"] 51 (by decide) rfl (by decide)
  exact absurd h2.1 (by decide)

/-- C3 amended: when the reported total exceeds 50 and the response lists at
least 50 files, the displayed listing is exactly the first 50 of them, the
note counts the remaining total - 50 files, and the returned string reports
the full reported total. -/
theorem C3_amended_truncation (env : Env) (pattern : String) (fs : List Json) (n : Int)
    (hav : availOk env = true)
    (hresp : env.filesResp =
      .ok ⟨200, some (Json.obj [("files", Json.arr fs), ("total", Json.num n)])⟩)
    (hn : 50 < n) (hlen : 50 ≤ fs.length) :
    (listFilesDisplay fs true).length = 50 ∧
    listFilesDisplay fs true = fs.take 50 ∧
    truncNote (Json.num n) =
      .ok ("\n[dim]... and " ++ toString (n - 50) ++ " more files[/dim]") ∧
    (vscode_list_files env pattern).ret = foundMsg (Json.num n) pattern := by
  have hne : (n == 0) = false := by
    simp only [beq_eq_false_iff_ne]
    omega
  have hgt : (decide (50 < n)) = true := by simpa using hn
  refine ⟨?_, rfl, ?_, ?_⟩
  · simp [listFilesDisplay, List.length_take]
    omega
  · simp [truncNote, pySubInt, pyStr, pyRepr]
  · unfold vscode_list_files list_files_body
    rw [ensure_eq, hresp]
    simp [hav, pyGet, List.lookup, pyEqZero, hne, pyGtInt, hgt, pyToList, runHandler,
      truncNote, pySubInt,
      show (("files" : String) == "files") = true from by decide,
      show (("total" : String) == "files") = false from by decide,
      show (("total" : String) == "total") = true from by decide]

/-- C3 amended witness: 51 reported files with all 51 listed; the display is
cut to exactly 50 and the return reports the full total. -/
theorem C3_amended_truncation_witness :
    (listFilesDisplay (List.replicate 51 (Json.str "f")) true).length = 50 ∧
    (vscode_list_files
      (baseEnvWith ok200 ok200
        (.ok ⟨200, some (Json.obj [("files", Json.arr (List.replicate 51 (Json.str "f"))),
                                   ("total", Json.num 60)])⟩)
        ok200 ok200 ok200 ok200 ok200 true) "p").ret = foundMsg (Json.num 60) "p" := by
  have h := C3_amended_truncation
    (baseEnvWith ok200 ok200
      (.ok ⟨200, some (Json.obj [("files", Json.arr (List.replicate 51 (Json.str "f"))),
                                 ("total", Json.num 60)])⟩)
      ok200 ok200 ok200 ok200 ok200 true)
    "p" (List.replicate 51 (Json.str "f")) 60 (by decide) rfl (by decide) (by decide)
  exact ⟨h.1, h.2.2.2⟩

/-! ## C1: error strings on unreachable service, success strings on 200 -/

/-- An HTTP interaction that raised instead of responding. -/
def respFailed : HttpResult → Bool
  | .error _ => true
  | .ok _ => false

/-- The external service is unreachable: every HTTP request raises and the
fallback socket probe cannot connect. -/
def serviceUnreachable (env : Env) : Bool :=
  respFailed env.healthResp &&
  (match env.sockConnectResult with
   | .ok rc => !(rc == 0)
   | .error _ => true) &&
  respFailed env.contextResp && respFailed env.selectionResp && respFailed env.filesResp &&
  respFailed env.readResp && respFailed env.previewResp && respFailed env.createResp &&
  respFailed env.diffResp && respFailed env.editResp

theorem api_false_of_unreachable (env : Env) (h : serviceUnreachable env = true) :
    (check_vscode_api env).2 = false := by
  unfold serviceUnreachable at h
  unfold check_vscode_api
  cases hh : env.healthResp with
  | ok r => rw [hh] at h; simp [respFailed] at h
  | error m =>
    cases hs : env.sockConnectResult with
    | ok rc =>
        rw [hh, hs] at h
        simp only [respFailed, Bool.and_eq_true] at h
        have hrc : ¬ rc = 0 := by simpa using h.1.1.1.1.1.1.1.1.2
        simp [hs, hrc]
    | error m2 => simp [hh, hs]

theorem availOk_false_of_unreachable (env : Env) (h : serviceUnreachable env = true) :
    availOk env = false := by
  unfold availOk
  rw [api_false_of_unreachable env h]
  simp

/-- C1 as stated (instantiated at the functions the claim cites): each
wrapper returns an error string when the service is unreachable, and a
success string whenever the service answers HTTP 200 with well-formed JSON.
"Error string" is rendered as: the returned string is the one displayed by
`display_rich_error` as the call's last act (for vscode_health_check, its
fixed not-available return); "success string" as its negation (for
vscode_health_check, its fixed ready return). -/
def C1_claim : Prop :=
  ∀ (env : Env) (pattern : String),
    (serviceUnreachable env = true →
      isErrRet (vscode_list_files env pattern) = true ∧
      isErrRet (vscode_get_selection env) = true ∧
      (vscode_health_check env).ret = notReadyRet) ∧
    (∀ (st : Nat) (j : Json), env.filesResp = .ok ⟨st, some j⟩ → st = 200 →
      isErrRet (vscode_list_files env pattern) = false) ∧
    (∀ (st : Nat) (j : Json), env.selectionResp = .ok ⟨st, some j⟩ → st = 200 →
      isErrRet (vscode_get_selection env) = false) ∧
    (∀ (st : Nat) (j : Json), env.healthResp = .ok ⟨st, some j⟩ → st = 200 →
      (vscode_health_check env).ret = readyRet)

/-- C1 counterexample: with the service healthy and `/workspace/files`
answering HTTP 200 with the well-formed JSON body `{}` (so zero files),
vscode_list_files returns the "No files found ..." string through
`display_rich_error` — an error string, not a success string. -/
theorem C1_counterexample : ¬ C1_claim := by
  intro h
  exact absurd ((h goodEnv "q").2.1 200 (Json.obj []) rfl rfl) (by decide)

/-- C1 amended: the wrappers return an error string whenever the service is
unreachable, and a success string when it answers HTTP 200 with well-formed
JSON *whose content indicates success*: for vscode_list_files a nonzero
reported total, for vscode_get_selection a body that renders with an active
editor, and for vscode_health_check additionally an available `code`
command. -/
theorem C1_amended_wrappers :
    (∀ (env : Env) (pattern : String), serviceUnreachable env = true →
       isErrRet (vscode_list_files env pattern) = true ∧
       isErrRet (vscode_get_selection env) = true ∧
       (vscode_health_check env).ret = notReadyRet) ∧
    (∀ (env : Env) (pattern : String) (fs : List Json) (n : Int),
       availOk env = true →
       env.filesResp = .ok ⟨200, some (Json.obj [("files", Json.arr fs), ("total", Json.num n)])⟩ →
       (n == 0) = false →
       (vscode_list_files env pattern).ret = foundMsg (Json.num n) pattern) ∧
    (∀ (env : Env) (ctx : Json),
       availOk env = true →
       env.selectionResp = .ok ⟨200, some ctx⟩ →
       (selection_render ctx).2 = .ok selDisplayedMsg →
       (vscode_get_selection env).ret = selDisplayedMsg) ∧
    (∀ (env : Env) (b : Option Json),
       (check_code_command env).2 = true →
       env.healthResp = .ok ⟨200, b⟩ →
       (vscode_health_check env).ret = readyRet) := by
  refine ⟨fun env pattern h => ?_, fun env pattern fs n hav hresp hne => ?_,
          fun env ctx hav hresp hrd => ?_, fun env b hcode hresp => ?_⟩
  · have hao := availOk_false_of_unreachable env h
    have hapi := api_false_of_unreachable env h
    refine ⟨?_, ?_, ?_⟩
    · unfold vscode_list_files list_files_body
      rw [ensure_eq, hao]
      rcases probeTrace_cases env with hp | hp <;>
        simp [runHandler, isErrRet, hp, lastEv]
    · unfold vscode_get_selection get_selection_body
      rw [ensure_eq, hao]
      rcases probeTrace_cases env with hp | hp <;>
        simp [runHandler, isErrRet, hp, lastEv]
    · unfold vscode_health_check
      simp [hapi]
  · unfold vscode_list_files list_files_body
    rw [ensure_eq, hresp]
    cases h50 : decide (50 < n) <;>
      simp [hav, pyGet, List.lookup, pyEqZero, hne, pyGtInt, h50, pyToList, runHandler,
        truncNote, pySubInt,
        show (("files" : String) == "files") = true from by decide,
        show (("total" : String) == "files") = false from by decide,
        show (("total" : String) == "total") = true from by decide]
  · unfold vscode_get_selection get_selection_body
    rw [ensure_eq, hresp]
    simp [hav, runHandler, hrd]
  · unfold vscode_health_check
    simp [hcode, check_vscode_api, hresp]

/-- C1 amended witness: concrete unreachable and healthy environments
realising each hypothesis. -/
theorem C1_amended_wrappers_witness :
    isErrRet (vscode_list_files downEnv "p") = true ∧
    (vscode_health_check downEnv).ret = notReadyRet ∧
    (vscode_list_files
      (baseEnvWith ok200 ok200
        (.ok ⟨200, some (Json.obj [("files", Json.arr [Json.str "a"]), ("total", Json.num 1)])⟩)
        ok200 ok200 ok200 ok200 ok200 true) "p").ret = foundMsg (Json.num 1) "p" ∧
    (vscode_get_selection
      (baseEnvWith ok200 (.ok ⟨200, some (Json.obj [("hasActiveEditor", Json.bool true)])⟩)
        ok200 ok200 ok200 ok200 ok200 ok200 true)).ret = selDisplayedMsg ∧
    (vscode_health_check goodEnv).ret = readyRet := by
  have hu := C1_amended_wrappers.1 downEnv "p" (by decide)
  have h1 := C1_amended_wrappers.2.1
    (baseEnvWith ok200 ok200
      (.ok ⟨200, some (Json.obj [("files", Json.arr [Json.str "a"]), ("total", Json.num 1)])⟩)
      ok200 ok200 ok200 ok200 ok200 true)
    "p" [Json.str "a"] 1 (by decide) rfl (by decide)
  have h2 := C1_amended_wrappers.2.2.1
    (baseEnvWith ok200 (.ok ⟨200, some (Json.obj [("hasActiveEditor", Json.bool true)])⟩)
      ok200 ok200 ok200 ok200 ok200 ok200 true)
    (Json.obj [("hasActiveEditor", Json.bool true)]) (by decide) rfl rfl
  have h3 := C1_amended_wrappers.2.2.2 goodEnv (some (Json.obj [])) (by decide) rfl
  exact ⟨hu.1, hu.2.2, h1, h2, h3⟩

/-! ## C2: every failure is caught, printed and returned -/

/-- The string the except clauses produce for an exception: a
`VSCodeAvailabilityError` is returned as its own message, anything else goes
through the wrapper's formatter. -/
def fmtExc (fmt : String → String) : Exc → String
  | .availability m => m
  | .otherExc m => fmt m

/-- C2: every failure inside a wrapper body — availability errors, raised
network exceptions, bad JSON, bad field types — is caught by the except
clauses, converted to a human-readable string, displayed with
`display_rich_error` and returned (shown for the cited wrappers
vscode_get_context and vscode_create_file, whose Lean embeddings are total
functions, so no exception ever propagates); a non-200 response likewise
yields the formatted HTTP error string displayed and returned. -/
theorem C2_exceptions_converted :
    (∀ (env : Env) (tr : List Event) (e : Exc),
       get_context_body env = (tr, .error e) →
       vscode_get_context env =
         ⟨fmtExc fmt_get_context e, tr ++ [.richError (fmtExc fmt_get_context e)]⟩) ∧
    (∀ (env : Env) (fn content : String) (tr : List Event) (e : Exc),
       create_file_body env fn content = (tr, .error e) →
       vscode_create_file env fn content =
         ⟨fmtExc (fmt_create_file fn) e, tr ++ [.richError (fmtExc (fmt_create_file fn) e)]⟩) ∧
    (∀ (env : Env) (r : HttpResp),
       availOk env = true → env.contextResp = .ok r → (r.status == 200) = false →
       (vscode_get_context env).ret = fmt_get_context ("HTTP " ++ toString r.status) ∧
       isErrRet (vscode_get_context env) = true) := by
  refine ⟨fun env tr e h => ?_, fun env fn c tr e h => ?_, fun env r hav hresp h200 => ?_⟩
  · unfold vscode_get_context
    rw [h]
    cases e <;> rfl
  · unfold vscode_create_file
    rw [h]
    cases e <;> rfl
  · unfold vscode_get_context get_context_body
    rw [ensure_eq, hresp]
    rcases probeTrace_cases env with hp | hp <;>
      simp [hav, h200, runHandler, isErrRet, hp, lastEv]

/-- C2 witness: an unreachable service makes vscode_get_context return the
availability message; a raised POST makes vscode_create_file return the
formatted error; a 500 answer yields the formatted HTTP error string. -/
theorem C2_exceptions_converted_witness :
    (vscode_get_context downEnv).ret = apiFailMsg ∧
    (vscode_create_file
      (baseEnvWith ok200 ok200 ok200 ok200 ok200 (.error "ConnectionError") ok200 ok200 true)
      "a.py" "x").ret = fmt_create_file "a.py" "ConnectionError" ∧
    (vscode_get_context
      (baseEnvWith (.ok ⟨500, some (Json.obj [])⟩) ok200 ok200 ok200 ok200 ok200 ok200 ok200
        true)).ret = fmt_get_context "HTTP 500" := by
  have h1 := C2_exceptions_converted.1 downEnv
    [Event.procRun ["code", "--version"] 5, Event.httpGet (VSCODE_HTTP_URL ++ "/health") 3,
     Event.sockConnect "localhost" 8090 2]
    (.availability apiFailMsg) rfl
  have h2 := C2_exceptions_converted.2.1
    (baseEnvWith ok200 ok200 ok200 ok200 ok200 (.error "ConnectionError") ok200 ok200 true)
    "a.py" "x"
    [Event.procRun ["code", "--version"] 5, Event.httpGet (VSCODE_HTTP_URL ++ "/health") 3,
     Event.permCheck .FILE_WRITE (createDesc "a.py") true, Event.printPanel "x",
     Event.httpGet (VSCODE_HTTP_URL ++ "/preview") 10,
     Event.httpPost (VSCODE_HTTP_URL ++ "/file/create") 10]
    (.otherExc "ConnectionError") rfl
  have h3 := (C2_exceptions_converted.2.2
    (baseEnvWith (.ok ⟨500, some (Json.obj [])⟩) ok200 ok200 ok200 ok200 ok200 ok200 ok200 true)
    ⟨500, some (Json.obj [])⟩ (by decide) rfl (by decide)).1
  rw [h1, h2]
  exact ⟨rfl, rfl, h3⟩

/-! ## C8: the permission gate -/

/-- C8: when the permission oracle denies (in an environment where the gate
is reached, i.e. VS Code is available), vscode_read_file, vscode_create_file
and vscode_edit_file return their "Permission denied ..." string and issue no
request to any file or preview endpoint; the remaining four tools never
consult the permission manager at all. -/
theorem C8_permission_gate :
    (∀ (env : Env) (fp : String) (sl : Int) (el : Option Int),
       availOk env = true →
       env.getPermission .FILE_OPERATIONS (readDesc fp) = false →
       (vscode_read_file env fp sl el).ret = deniedReadMsg ∧
       ((vscode_read_file env fp sl el).trace.all fun e => !(isFileOrPreviewReq e)) = true) ∧
    (∀ (env : Env) (fn content : String),
       availOk env = true →
       env.getPermission .FILE_WRITE (createDesc fn) = false →
       (vscode_create_file env fn content).ret = deniedCreateMsg ∧
       ((vscode_create_file env fn content).trace.all fun e => !(isFileOrPreviewReq e)) = true) ∧
    (∀ (env : Env) (fn oldText newText : String),
       availOk env = true →
       env.getPermission .FILE_WRITE (editDesc fn) = false →
       (vscode_edit_file env fn oldText newText).ret = deniedEditMsg ∧
       ((vscode_edit_file env fn oldText newText).trace.all fun e => !(isFileOrPreviewReq e)) = true) ∧
    (∀ env : Env, ((vscode_get_context env).trace.all fun e => !(isPermEv e)) = true) ∧
    (∀ env : Env, ((vscode_get_selection env).trace.all fun e => !(isPermEv e)) = true) ∧
    (∀ (env : Env) (p : String),
       ((vscode_list_files env p).trace.all fun e => !(isPermEv e)) = true) ∧
    (∀ env : Env, ((vscode_health_check env).trace.all fun e => !(isPermEv e)) = true) := by
  have hNP : ∀ e, evBaseNP e = true → (!(isPermEv e)) = true := by
    intro e h
    simp [evBaseNP] at h
    simp [h.2]
  have hprobe : ∀ env : Env, ((probeTrace env).all fun e => !(isFileOrPreviewReq e)) = true :=
    fun env => probeTrace_all env _ (by decide) (by decide) (by decide)
  refine ⟨fun env fp sl el hav hperm => ?_, fun env fn c hav hperm => ?_,
          fun env fn o n hav hperm => ?_,
          fun env => all_imp hNP _ (get_context_trace_all env),
          fun env => all_imp hNP _ (get_selection_trace_all env),
          fun env p => all_imp hNP _ (list_files_trace_all env p),
          fun env => all_imp hNP _ (health_check_trace_all env)⟩
  · unfold vscode_read_file read_file_body
    rw [ensure_eq]
    have hp := hprobe env
    simp [hav, hperm, runHandler, List.all_append, hp,
      show ∀ p d g, isFileOrPreviewReq (Event.permCheck p d g) = false from fun _ _ _ => rfl,
      show ∀ s, isFileOrPreviewReq (Event.richError s) = false from fun _ => rfl]
  · unfold vscode_create_file create_file_body
    rw [ensure_eq]
    have hp := hprobe env
    simp [hav, hperm, runHandler, List.all_append, hp,
      show ∀ p d g, isFileOrPreviewReq (Event.permCheck p d g) = false from fun _ _ _ => rfl,
      show ∀ s, isFileOrPreviewReq (Event.richError s) = false from fun _ => rfl]
  · unfold vscode_edit_file edit_file_body
    rw [ensure_eq]
    have hp := hprobe env
    simp [hav, hperm, runHandler, List.all_append, hp,
      show ∀ p d g, isFileOrPreviewReq (Event.permCheck p d g) = false from fun _ _ _ => rfl,
      show ∀ s, isFileOrPreviewReq (Event.richError s) = false from fun _ => rfl]

/-- C8 witness: with VS Code available and the oracle denying everything,
each write-capable tool returns its denial string. -/
theorem C8_permission_gate_witness :
    (vscode_read_file (baseEnvWith ok200 ok200 ok200 ok200 ok200 ok200 ok200 ok200 false)
      "a.py" 1 none).ret = deniedReadMsg ∧
    (vscode_create_file (baseEnvWith ok200 ok200 ok200 ok200 ok200 ok200 ok200 ok200 false)
      "a.py" "x").ret = deniedCreateMsg ∧
    (vscode_edit_file (baseEnvWith ok200 ok200 ok200 ok200 ok200 ok200 ok200 ok200 false)
      "a.py" "x" "y").ret = deniedEditMsg := by
  have h1 := (C8_permission_gate.1
    (baseEnvWith ok200 ok200 ok200 ok200 ok200 ok200 ok200 ok200 false)
    "a.py" 1 none (by decide) rfl).1
  have h2 := (C8_permission_gate.2.1
    (baseEnvWith ok200 ok200 ok200 ok200 ok200 ok200 ok200 ok200 false)
    "a.py" "x" (by decide) rfl).1
  have h3 := (C8_permission_gate.2.2.1
    (baseEnvWith ok200 ok200 ok200 ok200 ok200 ok200 ok200 ok200 false)
    "a.py" "x" "y" (by decide) rfl).1
  exact ⟨h1, h2, h3⟩

/-! ## C10: preview/diff failures are swallowed -/

/-- C10: once vscode_create_file / vscode_edit_file pass availability and
permission, the POST to `/file/create` / `/file/edit` is always issued — the
optional preview GET `/preview` / diff GET `/diff` result (success, failure
or exception) is discarded — and the returned string is a function of the
POST response alone. -/
theorem C10_preview_diff_swallowed :
    (∀ (env : Env) (fn content : String),
       availOk env = true →
       env.getPermission .FILE_WRITE (createDesc fn) = true →
       Event.httpPost (VSCODE_HTTP_URL ++ "/file/create") 10 ∈
         (vscode_create_file env fn content).trace ∧
       (vscode_create_file env fn content).ret = createOutcome fn env.createResp) ∧
    (∀ (env : Env) (fn oldText newText : String),
       availOk env = true →
       env.getPermission .FILE_WRITE (editDesc fn) = true →
       Event.httpPost (VSCODE_HTTP_URL ++ "/file/edit") 10 ∈
         (vscode_edit_file env fn oldText newText).trace ∧
       (vscode_edit_file env fn oldText newText).ret = editOutcome fn env.editResp) := by
  refine ⟨fun env fn c hav hperm => ?_, fun env fn o n hav hperm => ?_⟩
  · unfold vscode_create_file create_file_body
    rw [ensure_eq]
    cases hr : env.createResp with
    | error m => simp [hav, hperm, runHandler, createOutcome, List.mem_append]
    | ok r =>
      cases hs : r.status == 200 with
      | true => simp [hav, hperm, hs, runHandler, createOutcome, List.mem_append]
      | false =>
        cases hb : r.body with
        | none => simp [hav, hperm, hs, hb, runHandler, createOutcome, List.mem_append]
        | some data =>
          cases hpg : pyGet data "error" (Json.str "Unknown error") <;>
            simp [hav, hperm, hs, hb, hpg, runHandler, createOutcome, List.mem_append]
  · unfold vscode_edit_file edit_file_body
    rw [ensure_eq]
    cases hr : env.editResp with
    | error m => simp [hav, hperm, runHandler, editOutcome, List.mem_append]
    | ok r =>
      cases hs : r.status == 200 with
      | true => simp [hav, hperm, hs, runHandler, editOutcome, List.mem_append]
      | false =>
        cases hb : r.body with
        | none => simp [hav, hperm, hs, hb, runHandler, editOutcome, List.mem_append]
        | some data =>
          cases hpg : pyGet data "error" (Json.str "Unknown error") <;>
            simp [hav, hperm, hs, hb, hpg, runHandler, editOutcome, List.mem_append]

/-- C10 witness: the preview GET and diff GET both raise, yet the POSTs go
out and both operations report success. -/
theorem C10_preview_diff_swallowed_witness :
    Event.httpPost (VSCODE_HTTP_URL ++ "/file/create") 10 ∈
      (vscode_create_file
        (baseEnvWith ok200 ok200 ok200 ok200 (.error "ConnectionError") ok200
          (.error "ConnectionError") ok200 true) "a.py" "x").trace ∧
    (vscode_create_file
      (baseEnvWith ok200 ok200 ok200 ok200 (.error "ConnectionError") ok200
        (.error "ConnectionError") ok200 true) "a.py" "x").ret = successCreateMsg "a.py" ∧
    Event.httpPost (VSCODE_HTTP_URL ++ "/file/edit") 10 ∈
      (vscode_edit_file
        (baseEnvWith ok200 ok200 ok200 ok200 (.error "ConnectionError") ok200
          (.error "ConnectionError") ok200 true) "a.py" "x" "y").trace ∧
    (vscode_edit_file
      (baseEnvWith ok200 ok200 ok200 ok200 (.error "ConnectionError") ok200
        (.error "ConnectionError") ok200 true) "a.py" "x" "y").ret = successEditMsg "a.py" := by
  have h1 := C10_preview_diff_swallowed.1
    (baseEnvWith ok200 ok200 ok200 ok200 (.error "ConnectionError") ok200
      (.error "ConnectionError") ok200 true) "a.py" "x" (by decide) rfl
  have h2 := C10_preview_diff_swallowed.2
    (baseEnvWith ok200 ok200 ok200 ok200 (.error "ConnectionError") ok200
      (.error "ConnectionError") ok200 true) "a.py" "x" "y" (by decide) rfl
  exact ⟨h1.1, h1.2, h2.1, h2.2⟩

/-! ## C5: probe, gate, single request, output -/

theorem lastEv_append (l1 l2 : List Event) (h : l2 ≠ []) : lastEv (l1 ++ l2) = lastEv l2 := by
  induction l1 with
  | nil => rfl
  | cons a l ih =>
    cases l with
    | nil =>
      cases l2 with
      | nil => exact absurd rfl h
      | cons b bs => simp [lastEv]
    | cons b bs => simpa [lastEv] using ih

/-- C5 as stated: the operation's trace consists of probe events, then an
optional permission query, then exactly one HTTP request beyond the probe,
then console output only. -/
def C5_strict (tr : List Event) : Bool :=
  noLater (fun e => !(isProbeEv e)) isProbeEv tr &&
  noLater isReqEv isPermEv tr &&
  noLater isPrintEv isReqEv tr &&
  (tr.countP (fun e => isReqEv e) == 1) &&
  lastIsPrint tr

/-- C5 as stated, for the three cited operations in every environment. -/
def C5_claim : Prop :=
  (∀ (env : Env) (fn content : String),
    C5_strict (vscode_create_file env fn content).trace = true) ∧
  (∀ (env : Env) (fn oldText newText : String),
    C5_strict (vscode_edit_file env fn oldText newText).trace = true) ∧
  (∀ env : Env, C5_strict (vscode_health_check env).trace = true)

/-- C5 counterexample: in the healthy environment vscode_create_file prints
a preview panel and issues TWO requests beyond the probe (GET `/preview`
then POST `/file/create`), so its trace is not probe–gate–single
request–output. -/
theorem C5_counterexample : ¬ C5_claim :=
  fun h => absurd (h.1 goodEnv "a.py" "x") (by decide)

theorem previewNeHealth :
    ((VSCODE_HTTP_URL ++ "/preview" == VSCODE_HTTP_URL ++ "/health") : Bool) = false := by decide

theorem diffNeHealth :
    ((VSCODE_HTTP_URL ++ "/diff" == VSCODE_HTTP_URL ++ "/health") : Bool) = false := by decide

/-- C5 amended: for vscode_create_file and vscode_edit_file the trace is:
availability probes first, any permission query before any further request,
at most one optional preview/diff GET followed by at most one primary POST
(never a request after the POST), ending in console output;
vscode_health_check performs only the probes and console output, with no
request beyond the probe. -/
theorem health_aux (env : Env) (L : List Event)
    (hprint : L.all isPrintEv = true) (hlast : lastIsPrint L = true) :
    ((probeTrace env ++ L).all fun e => isProbeEv e || isPrintEv e) = true ∧
    (probeTrace env ++ L).countP (fun e => isReqEv e) = 0 ∧
    lastIsPrint (probeTrace env ++ L) = true := by
  have hL : L ≠ [] := by
    intro h
    rw [h] at hlast
    simp [lastIsPrint, lastEv] at hlast
  refine ⟨?_, ?_, ?_⟩
  · have h1 : ((probeTrace env).all fun e => isProbeEv e || isPrintEv e) = true :=
      probeTrace_all env (fun e => isProbeEv e || isPrintEv e) (by decide) (by decide) (by decide)
    have h2 : (L.all fun e => isProbeEv e || isPrintEv e) = true :=
      all_imp (fun e h => by simp [h]) L hprint
    simp [List.all_append, h1, h2]
  · rw [List.countP_append]
    have h1 : (probeTrace env).countP (fun e => isReqEv e) = 0 := by
      rcases probeTrace_cases env with hp | hp <;> rw [hp] <;> decide
    have h2 : L.countP (fun e => isReqEv e) = 0 := by
      rw [List.countP_eq_zero]
      intro a haL
      have ha := (List.all_eq_true.mp hprint) a haL
      cases a <;> simp_all [isPrintEv, isReqEv]
    rw [h1, h2]
  · unfold lastIsPrint at hlast ⊢
    rw [lastEv_append _ _ hL]
    exact hlast

set_option maxHeartbeats 2000000

/-- C5 amended sequence theorem follows. -/
theorem C5_amended_sequence :
    (∀ (env : Env) (fn content : String),
       noLater (fun e => !(isProbeEv e)) isProbeEv (vscode_create_file env fn content).trace = true ∧
       noLater isReqEv isPermEv (vscode_create_file env fn content).trace = true ∧
       noLater isPostEv isReqEv (vscode_create_file env fn content).trace = true ∧
       (vscode_create_file env fn content).trace.countP (fun e => isPostEv e) ≤ 1 ∧
       (vscode_create_file env fn content).trace.countP (fun e => isReqEv e) ≤ 2 ∧
       lastIsPrint (vscode_create_file env fn content).trace = true) ∧
    (∀ (env : Env) (fn oldText newText : String),
       noLater (fun e => !(isProbeEv e)) isProbeEv (vscode_edit_file env fn oldText newText).trace = true ∧
       noLater isReqEv isPermEv (vscode_edit_file env fn oldText newText).trace = true ∧
       noLater isPostEv isReqEv (vscode_edit_file env fn oldText newText).trace = true ∧
       (vscode_edit_file env fn oldText newText).trace.countP (fun e => isPostEv e) ≤ 1 ∧
       (vscode_edit_file env fn oldText newText).trace.countP (fun e => isReqEv e) ≤ 2 ∧
       lastIsPrint (vscode_edit_file env fn oldText newText).trace = true) ∧
    (∀ env : Env,
       ((vscode_health_check env).trace.all fun e => isProbeEv e || isPrintEv e) = true ∧
       (vscode_health_check env).trace.countP (fun e => isReqEv e) = 0 ∧
       lastIsPrint (vscode_health_check env).trace = true) := by
  refine ⟨fun env fn c => ?_, fun env fn o n => ?_, fun env => ?_⟩
  · unfold vscode_create_file create_file_body
    rw [ensure_eq]
    cases hg : env.getPermission PermissionType.FILE_WRITE (createDesc fn)
    all_goals rcases probeTrace_cases env with hp | hp <;> rw [hp] <;>
      repeat' split
    all_goals
      simp [runHandler, noLater, lastIsPrint, lastEv, isProbeEv, isReqEv, isPostEv,
        isPermEv, isPrintEv, List.countP_cons, previewNeHealth]
  · unfold vscode_edit_file edit_file_body
    rw [ensure_eq]
    cases hg : env.getPermission PermissionType.FILE_WRITE (editDesc fn)
    all_goals rcases probeTrace_cases env with hp | hp <;> rw [hp] <;>
      repeat' split
    all_goals
      simp [runHandler, noLater, lastIsPrint, lastEv, isProbeEv, isReqEv, isPostEv,
        isPermEv, isPrintEv, List.countP_cons, diffNeHealth]
  · simp only [vscode_health_check]
    cases hc : (check_code_command env).2 <;> cases ha : (check_vscode_api env).2 <;>
      simp only [Bool.and_self, Bool.and_false, Bool.false_and, Bool.and_true, Bool.true_and,
        Bool.false_eq_true, if_true, if_false, ite_true, ite_false] <;>
      first
      | exact health_aux env [Event.printPanel (healthStatusInfo true true)]
          (by decide) (by decide)
      | exact health_aux env
          [Event.printPanel (healthStatusInfo false false),
           Event.printText (healthHelpText false false)]
          (by decide) (by decide)
      | exact health_aux env
          [Event.printPanel (healthStatusInfo false true),
           Event.printText (healthHelpText false true)]
          (by decide) (by decide)
      | exact health_aux env
          [Event.printPanel (healthStatusInfo true false),
           Event.printText (healthHelpText true false)]
          (by decide) (by decide)
